import Mathlib

/-!
Verification of the Solidity Copilot repository (src/app.py, src/prompts.py).

The development shallowly embeds the core of the program:
* a model of Python `json.loads` (JSON values and a strict parser),
* `parse_assumptions_response` from prompts.py,
* the prompt templates from prompts.py and app.py,
* `make_api_call` and `get_response` from app.py, with the network modelled
  as an oracle `Nat → PostOutcome` giving the outcome of the n-th HTTP POST
  of a turn, and raised Python exceptions modelled as `Except PyExn` values.
-/

set_option maxRecDepth 10000

/-- JSON values as produced by Python `json.loads`.  Numbers keep their raw
lexeme (no claim inspects numeric values), objects keep their key/value pairs
in textual order. -/
inductive PyJson where
  | null
  | bool (b : Bool)
  | num (raw : String)
  | str (s : String)
  | arr (elems : List PyJson)
  | obj (fields : List (String × PyJson))
deriving Repr

/-- Python exceptions that the embedded code can raise. -/
inductive PyExn where
  /-- `Exception("API call failed: ...")` raised at app.py:212 when the POST
  itself raises (connection error, TLS failure, timeout). -/
  | apiCallFailed (msg : String)
  /-- `Exception("API Error: <status> - <body>")` raised at app.py:223 on a
  non-200 status; carries the status code and the response body. -/
  | apiStatusError (status : Nat) (body : String)
  /-- KeyError/IndexError/TypeError raised at app.py:217 when
  `choices[0].message.content` is absent (or not text) in the decoded body. -/
  | malformedResponse
  /-- `json.JSONDecodeError` (raised by `response.json()` when a 200 body is
  not valid JSON). -/
  | jsonDecodeError
  /-- AttributeError: `data.get` on a decoded value that is not a dict
  (prompts.py:314). -/
  | attributeError
  /-- TypeError: `"\n".join` applied to a non-iterable-of-strings value. -/
  | typeError
deriving DecidableEq, Repr

/-! ### A model of Python `json.loads` -/

def isJsonWs (c : Char) : Bool :=
  c == ' ' || c == '\t' || c == '\n' || c == '\r'

def skipWs (cs : List Char) : List Char := cs.dropWhile isJsonWs

/-- Value of one hexadecimal digit, by code point. -/
def hexDigit (c : Char) : Option Nat :=
  let n := c.toNat
  if 48 ≤ n ∧ n ≤ 57 then some (n - 48)
  else if 97 ≤ n ∧ n ≤ 102 then some (n - 87)
  else if 65 ≤ n ∧ n ≤ 70 then some (n - 55)
  else none

/-- Four hexadecimal digits (a `\uXXXX` escape's payload). -/
def hexQuad (cs : List Char) : Option (Nat × List Char) :=
  match cs with
  | c1 :: c2 :: c3 :: c4 :: r =>
    match hexDigit c1, hexDigit c2, hexDigit c3, hexDigit c4 with
    | some v1, some v2, some v3, some v4 =>
      some (((v1 * 16 + v2) * 16 + v3) * 16 + v4, r)
    | _, _, _, _ => none
  | _ => none

/-- Decode a single-character escape (everything except `\u`). -/
def escChar (e : Char) : Option Char :=
  if e == '"' then some '"'
  else if e == '\\' then some '\\'
  else if e == '/' then some '/'
  else if e == 'b' then some (Char.ofNat 8)
  else if e == 'f' then some (Char.ofNat 12)
  else if e == 'n' then some '\n'
  else if e == 'r' then some '\r'
  else if e == 't' then some '\t'
  else none

/-- Remove an exact sequence of characters from the front, if present. -/
def dropExact : List Char → List Char → Option (List Char)
  | [], cs => some cs
  | _ :: _, [] => none
  | l :: ls, c :: cs => if c == l then dropExact ls cs else none

/-- Recognize a fixed keyword standing for a constant JSON value. -/
def litTok (word : String) (v : PyJson) (cs : List Char) :
    Option (PyJson × List Char) :=
  (dropExact word.data cs).map (fun rest => (v, rest))

/-- Body of a JSON string after the opening quote: returns the decoded string
and the remaining characters after the closing quote.  Python (strict mode)
rejects unescaped control characters. -/
def parseStringBody (fuel : Nat) (cs : List Char) (acc : List Char) :
    Option (String × List Char) :=
  match fuel, cs with
  | 0, _ => none
  | _, [] => none
  | fuel + 1, c :: rest =>
    if c == '"' then some (String.mk acc.reverse, rest)
    else if c == '\\' then
      match rest with
      | 'u' :: rest1 =>
        match hexQuad rest1 with
        | some (v, rest2) => parseStringBody fuel rest2 (Char.ofNat v :: acc)
        | none => none
      | e :: rest1 =>
        match escChar e with
        | some d => parseStringBody fuel rest1 (d :: acc)
        | none => none
      | [] => none
    else if c.toNat < 32 then none
    else parseStringBody fuel rest (c :: acc)

/-- Longest prefix of decimal digits, and what follows it. -/
def takeDigits (cs : List Char) : List Char × List Char :=
  (cs.takeWhile Char.isDigit, cs.dropWhile Char.isDigit)

/-- Exponent part of a JSON number (after the mantissa). -/
def parseNumExp (acc : List Char) (cs : List Char) : String × List Char :=
  match cs with
  | e :: rest =>
    if e == 'e' || e == 'E' then
      match rest with
      | s :: rest' =>
        if s == '+' || s == '-' then
          match takeDigits rest' with
          | ([], _) => (String.mk acc, cs)
          | (ds, rest'') => (String.mk (acc ++ e :: s :: ds), rest'')
        else
          match takeDigits rest with
          | ([], _) => (String.mk acc, cs)
          | (ds, rest'') => (String.mk (acc ++ e :: ds), rest'')
      | [] => (String.mk acc, cs)
    else (String.mk acc, cs)
  | [] => (String.mk acc, cs)

/-- Fraction and exponent part of a JSON number (after the integer part). -/
def parseNumFrac (acc : List Char) (cs : List Char) : String × List Char :=
  match cs with
  | '.' :: rest =>
    match takeDigits rest with
    | ([], _) => (String.mk acc, cs)
    | (ds, rest') => parseNumExp (acc ++ '.' :: ds) rest'
  | _ => parseNumExp acc cs

/-- A JSON number lexeme: `-?(0|[1-9][0-9]*)(\.[0-9]+)?([eE][-+]?[0-9]+)?`
(Python rejects leading zeros). -/
def parseNumber (cs : List Char) : Option (String × List Char) :=
  let (sgn, cs1) : List Char × List Char :=
    match cs with
    | '-' :: r => (['-'], r)
    | _ => ([], cs)
  match cs1 with
  | c :: rest =>
    if c == '0' then some (parseNumFrac (sgn ++ ['0']) rest)
    else if c.isDigit then
      let (ds, rest') := takeDigits rest
      some (parseNumFrac (sgn ++ c :: ds) rest')
    else none
  | [] => none

mutual

/-- Parse one JSON value (leading whitespace allowed), fuel-indexed. -/
def parseVal (fuel : Nat) (cs : List Char) : Option (PyJson × List Char) :=
  match fuel with
  | 0 => none
  | f + 1 =>
    let body := skipWs cs
    (litTok "null" .null body).orElse fun _ =>
    (litTok "true" (.bool true) body).orElse fun _ =>
    (litTok "false" (.bool false) body).orElse fun _ =>
    (litTok "NaN" (.num "NaN") body).orElse fun _ =>
    (litTok "Infinity" (.num "Infinity") body).orElse fun _ =>
    (litTok "-Infinity" (.num "-Infinity") body).orElse fun _ =>
    match body with
    | '"' :: rest =>
      match parseStringBody (rest.length + 1) rest [] with
      | some (s, more) => some (.str s, more)
      | none => none
    | '[' :: rest =>
      match skipWs rest with
      | ']' :: rest' => some (.arr [], rest')
      | rest' => parseArrRest f rest' []
    | '{' :: rest =>
      match skipWs rest with
      | '}' :: rest' => some (.obj [], rest')
      | rest' => parseObjRest f rest' []
    | c :: rest =>
      if c == '-' || c.isDigit then
        match parseNumber (c :: rest) with
        | some (raw, rest') => some (.num raw, rest')
        | none => none
      else none
    | [] => none
termination_by structural fuel

/-- Remaining elements of a non-empty JSON array (accumulator reversed). -/
def parseArrRest (fuel : Nat) (cs : List Char) (acc : List PyJson) :
    Option (PyJson × List Char) :=
  match fuel with
  | 0 => none
  | f + 1 =>
    match parseVal f cs with
    | none => none
    | some (v, rest) =>
      match skipWs rest with
      | ',' :: rest' => parseArrRest f rest' (v :: acc)
      | ']' :: rest' => some (.arr (v :: acc).reverse, rest')
      | _ => none
termination_by structural fuel

/-- Remaining members of a non-empty JSON object (accumulator reversed). -/
def parseObjRest (fuel : Nat) (cs : List Char) (acc : List (String × PyJson)) :
    Option (PyJson × List Char) :=
  match fuel with
  | 0 => none
  | f + 1 =>
    match skipWs cs with
    | '"' :: rest =>
      match parseStringBody (rest.length + 1) rest [] with
      | none => none
      | some (key, rest1) =>
        match skipWs rest1 with
        | ':' :: rest2 =>
          match parseVal f rest2 with
          | none => none
          | some (v, rest3) =>
            match skipWs rest3 with
            | ',' :: rest4 => parseObjRest f rest4 ((key, v) :: acc)
            | '}' :: rest4 => some (.obj ((key, v) :: acc).reverse, rest4)
            | _ => none
        | _ => none
    | _ => none
termination_by structural fuel

end

/-- Model of Python `json.loads`: parse one value, then only whitespace may
remain ("Extra data" otherwise).  `none` models a raised `JSONDecodeError`. -/
def json_loads (s : String) : Option PyJson :=
  match parseVal (2 * s.length + 4) s.data with
  | some (v, rest) => if (skipWs rest).isEmpty then some v else none
  | none => none


/-! ### `parse_assumptions_response` (prompts.py lines 305-326) -/

/-- Python dict built from JSON object members (later duplicate keys win),
followed by `dict.get key`. -/
def dictGet (fields : List (String × PyJson)) (key : String) : Option PyJson :=
  List.foldl (fun acc kv => if kv.1 == key then some kv.2 else acc) none fields

/-- Elements of a Python list if they are all strings (`str.join` raises
TypeError otherwise). -/
def allStrs : List PyJson → Option (List String)
  | [] => some []
  | .str s :: rest => (allStrs rest).map (s :: ·)
  | _ :: _ => none

/-- Python `"\n".join(v)`: joins a list of strings, the characters of a
string, or the keys of a dict; raises TypeError on any other value. -/
def pyJoinNl (v : PyJson) : Except PyExn String :=
  match v with
  | .arr xs =>
    match allStrs xs with
    | some ss => .ok (String.intercalate "\n" ss)
    | none => .error .typeError
  | .str s => .ok (String.intercalate "\n" (s.data.map (fun c => String.mk [c])))
  | .obj fields => .ok (String.intercalate "\n" (fields.map Prod.fst))
  | _ => .error .typeError

/-- `"\n".join(data.get(key, []))` for a decoded dict: a missing key defaults
to the empty list, which joins to `""`. -/
def getJoin (fields : List (String × PyJson)) (key : String) :
    Except PyExn String :=
  match dictGet fields key with
  | none => .ok ""
  | some v => pyJoinNl v

/-- Fallback pair returned when `json.loads` raises `JSONDecodeError`
(prompts.py:326). -/
def jsonFailMarker : String := "Failed to parse assumptions as JSON"

/-- `parse_assumptions_response` from prompts.py.  Only `JSONDecodeError` is
caught; `data.get` on a non-dict raises AttributeError and `"\n".join` of a
non-string-list raises TypeError, both uncaught (modelled as `.error`). -/
def parse_assumptions_response (assumptions_response : String) :
    Except PyExn (String × String) :=
  match json_loads assumptions_response with
  | none => .ok (jsonFailMarker, jsonFailMarker)
  | some (.obj fields) =>
    match getJoin fields "technical_assumptions" with
    | .error e => .error e
    | .ok technical_assumptions =>
      match getJoin fields "security_assumptions" with
      | .error e => .error e
      | .ok security_assumptions =>
        match getJoin fields "implementation_assumptions" with
        | .error e => .error e
        | .ok implementation_assumptions =>
          .ok
            (if implementation_assumptions.isEmpty then technical_assumptions
             else
               technical_assumptions ++ "\n\nImplementation Assumptions:\n" ++
                 implementation_assumptions,
             security_assumptions)
  | some _ => .error .attributeError
/-- The fixed expert system prompt returned by `get_solidity_expert_prompt` in prompts.py. -/
def get_solidity_expert_prompt : String :=
  "You are a Solidity expert, and you will be generating smart contracts.\nFocus on writing clean, secure, and efficient Solidity code.\nUse SPDX license identifiers. Use clear variable and contract naming conventions (CamelCase for variables, UpperCamelCase for contracts).\nImplement thorough error handling and utilize testing frameworks like Foundry.\nPrioritize gas optimization and ensure code is well-commented.\nAlso, be mindful of common vulnerabilities and strive to write secure code.\n\n# Solidity Smart Contract Development Rules\n\n## Core Principles\n\n- Security first: Use OpenZeppelin contracts, implement reentrancy guards, proper access controls\n- Gas optimization: Prefer uint256, use memory/storage appropriately, minimize storage operations\n- Follow Checks-Effects-Interactions pattern\n- Use explicit function visibility and comprehensive natspec documentation\n- **ALWAYS verify token balances and state consistency in tests**\n\n## Code Structure\n\n- Contract naming: PascalCase\n- Function naming: camelCase\n- Constants: UPPER_CASE\n- Function order: constructor, receive/fallback, external, public, internal, private\n- Always use SPDX license identifier\n\n## Solidity & OpenZeppelin Versions\n\nSolidity: ^0.8.24\nOpenZeppelin: ^5.4.0\n**NEVER use git submodules for dependency management - use forge install with remappings**\n\n## Required Imports & Patterns\n\n- ReentrancyGuard\n- Ownable\n- Pausable\n- AccessControl\n- **MerkleProof for airdrop implementations based on OpenZeppelin. Instead of preallocating the proof array, use a dynamic array and push elements as you build the proof.**\n\n## Security Requirements\n\n- Never use tx.origin for authorization\n- Implement nonReentrant for fund transfers\n- Use custom errors instead of require strings for gas efficiency\n- Add circuit breakers for critical functions\n- Validate all external inputs\n- **Always verify Merkle proofs using OpenZeppelin\x27s MerkleProof.verify**\n- **Merkle Tree Compatibility: Use sorted-pair Merkle trees for OpenZeppelin compatibility**\n\n## Gas Optimization\n\n- Use uint256 for calculations (most efficient on EVM)\n- Pack structs efficiently\n- Use events instead of storage for historical data\n- Minimize external calls\n- Use assembly for gas-critical operations when necessary\n- **Use unchecked blocks for safe arithmetic operations**\n\n## Testing Requirements\n\n- Write comprehensive tests with Foundry\n- Test edge cases and error conditions\n- Use fuzzing for input validation\n- Test with different user roles and permissions\n- **ALWAYS use MOCK ERC20 token for tests**\n- **Test with realistic token amounts and edge cases**\n\n## Error Handling\n\n- Use custom errors for gas efficiency\n- Implement proper access control\n- Add circuit breakers for emergency situations\n- Validate all inputs and state transitions\n- Use try-catch for external calls when appropriate\n\n## Documentation\n\n- Use natspec comments for all public functions\n- Document all state variables\n- Explain complex logic and algorithms\n- Include usage examples in comments\n- Document security considerations\n\n## Deployment Considerations\n\n- Use proper constructor parameters\n- Implement upgrade patterns when needed\n- Consider gas costs for deployment\n- Use deterministic addresses when possible\n- **Always include proper initialization checks**\n\n## Common Patterns\n\n- Use OpenZeppelin\x27s ReentrancyGuard for fund transfers\n- Implement proper access control with roles\n- Use events for important state changes\n- Implement pausable functionality for emergency stops\n- Use time-based locks for critical operations\n\n## Security Checklist\n\n- [ ] No reentrancy vulnerabilities\n- [ ] Proper access control implemented\n- [ ] Input validation on all external functions\n- [ ] No integer overflow/underflow (Solidity 0.8+)\n- [ ] Proper error handling\n- [ ] Events emitted for important actions\n- [ ] No use of tx.origin for authorization\n- [ ] Proper use of require/assert statements\n- [ ] No hardcoded addresses or magic numbers\n- [ ] Proper use of external vs public functions\n\n## Testing Checklist\n\n- [ ] Unit tests for all functions\n- [ ] Integration tests for complex workflows\n- [ ] Edge case testing\n- [ ] Gas optimization testing\n- [ ] Security vulnerability testing\n- [ ] Access control testing\n- [ ] Error condition testing\n- [ ] State transition testing\n\n## Code Quality Standards\n\n- Follow Solidity style guide\n- Use meaningful variable and function names\n- Keep functions small and focused\n- Avoid deep nesting\n- Use consistent formatting\n- Add comments for complex logic\n- Use type hints and explicit conversions\n- **Always use the latest Solidity features and best practices**\n\n## OpenZeppelin Integration\n\n- Use OpenZeppelin contracts for security\n- Implement proper inheritance patterns\n- Use OpenZeppelin\x27s access control system\n- Leverage OpenZeppelin\x27s upgradeable contracts when needed\n- **Always use OpenZeppelin\x27s MerkleProof for airdrop implementations**\n\n## Advanced Patterns\n\n- Implement proxy patterns for upgradeability\n- Use library contracts for reusable code\n- Implement factory patterns for contract creation\n- Use delegatecall for modular functionality\n- **Implement proper initialization patterns for upgradeable contracts**\n\n## Gas Optimization Techniques\n\n- Use storage vs memory appropriately\n- Pack structs to minimize storage slots\n- Use events instead of storage for historical data\n- Implement batch operations when possible\n- Use assembly for gas-critical operations\n- **Optimize for gas costs in production deployments**\n\n## Security Best Practices\n\n- Implement proper access control\n- Use reentrancy guards\n- Validate all inputs\n- Implement circuit breakers\n- Use time-based locks for critical operations\n- **Always verify external contract interactions**\n\n## Testing Best Practices\n\n- Write comprehensive test suites\n- Test all edge cases\n- Use fuzzing for input validation\n- Test with different user roles\n- **Always test with realistic scenarios and amounts**\n\n## Deployment Best Practices\n\n- Use proper constructor parameters\n- Implement proper initialization\n- Consider gas costs\n- Use deterministic addresses when possible\n- **Always include proper verification and testing before deployment**\n\n## Common Vulnerabilities to Avoid\n\n- Reentrancy attacks\n- Integer overflow/underflow\n- Access control bypass\n- Front-running vulnerabilities\n- Denial of service attacks\n- **Always implement proper security measures and test thoroughly**\n\n## Code Examples\n\n\x60\x60\x60solidity\n// SPDX-License-Identifier: MIT\npragma solidity ^0.8.24;\n\nimport \"@openzeppelin/contracts/security/ReentrancyGuard.sol\";\nimport \"@openzeppelin/contracts/access/Ownable.sol\";\nimport \"@openzeppelin/contracts/security/Pausable.sol\";\n\ncontract ExampleContract is ReentrancyGuard, Ownable, Pausable \x7b\n    // State variables\n    uint256 public constant MAX_SUPPLY = 1000000;\n    uint256 public totalSupply;\n    \n    // Events\n    event TokenMinted(address indexed to, uint256 amount);\n    \n    // Modifiers\n    modifier onlyWhenNotPaused() \x7b\n        require(!paused(), \"Contract is paused\");\n        _;\n    \x7d\n    \n    // Functions\n    function mint(address to, uint256 amount) \n        external \n        onlyOwner \n        onlyWhenNotPaused \n        nonReentrant \n    \x7b\n        require(totalSupply + amount <= MAX_SUPPLY, \"Exceeds max supply\");\n        totalSupply += amount;\n        emit TokenMinted(to, amount);\n    \x7d\n\x7d\n\x60\x60\x60\n\n## Testing Examples\n\n\x60\x60\x60solidity\n// SPDX-License-Identifier: MIT\npragma solidity ^0.8.24;\n\nimport \"forge-std/Test.sol\";\nimport \"forge-std/console.sol\";\nimport \"../src/ExampleContract.sol\";\n\ncontract ExampleContractTest is Test \x7b\n    ExampleContract public exampleContract;\n    address public owner = address(0x1);\n    address public user = address(0x2);\n    \n    function setUp() public \x7b\n        vm.prank(owner);\n        exampleContract = new ExampleContract();\n    \x7d\n    \n    function testMint() public \x7b\n        vm.prank(owner);\n        exampleContract.mint(user, 1000);\n        assertEq(exampleContract.totalSupply(), 1000);\n    \x7d\n    \n    function testMintFailsWhenNotOwner() public \x7b\n        vm.prank(user);\n        vm.expectRevert();\n        exampleContract.mint(user, 1000);\n    \x7d\n\x7d\n\x60\x60\x60\n\n**Remember: Always prioritize security, gas efficiency, and code quality in your implementations.**\n"

/-- Literal segments of the f-string template built at app.py lines 252-264. -/
def improvementSeg1 : String :=
  "Please review and improve the following Solidity code. Focus on:\n\n1. **Technical Accuracy**: Ensure the code is correct, complete, and follows best practices\n2. **Security**: Identify and fix any security vulnerabilities\n3. **Gas Optimization**: Optimize for gas efficiency where possible\n4. **Code Quality**: Improve readability, documentation, and structure\n\nOriginal Request: "
def improvementSeg2 : String :=
  "\n\nGenerated Code:\n"
def improvementSeg3 : String :=
  "\n\nPlease provide an improved version of the code that addresses any issues you find. If the code is already excellent, provide it with minor improvements or additional comments."

/-- The improvement prompt f-string from app.py (step 2 user prompt). -/
def improvement_prompt (user_input primary_response : String) : String :=
  improvementSeg1 ++ user_input ++ improvementSeg2 ++ primary_response ++ improvementSeg3

/-- Literal segments of the f-string template in `get_assumptions_prompt` (prompts.py). -/
def assumptionsSeg1 : String :=
  "Analyze the following Solidity code and identify all assumptions made that weren\x27t explicitly specified by the user.\n\nOriginal User Request: "
def assumptionsSeg2 : String :=
  "\n\nGenerated Code:\n"
def assumptionsSeg3 : String :=
  "\n\n**IMPORTANT: Respond with valid JSON only in this exact format:**\n\n\x7b\n  \"technical_assumptions\": [\n    \"Assumption 1: Description of what was assumed\",\n    \"Assumption 2: Description of what was assumed\"\n  ],\n  \"security_assumptions\": [\n    \"Assumption 1: Description of what was assumed\",\n    \"Assumption 2: Description of what was assumed\"\n  ],\n  \"implementation_assumptions\": [\n    \"Assumption 1: Description of what was assumed\",\n    \"Assumption 2: Description of what was assumed\"\n  ]\n\x7d\n\nBe specific about what was assumed and why it wasn\x27t explicitly requested by the user. Return only the JSON, no other text."

/-- The assumptions-analysis prompt from `get_assumptions_prompt` in prompts.py. -/
def get_assumptions_prompt (user_input improved_response : String) : String :=
  assumptionsSeg1 ++ user_input ++ assumptionsSeg2 ++ improved_response ++ assumptionsSeg3

/-! ### Transport client (`make_api_call`, app.py lines 144-223) -/

/-- One entry of the request body's `messages` list. -/
structure ChatMessage where
  role : String
  content : String
deriving DecidableEq, Repr

/-- The request assembled by `make_api_call`: endpoint URL, authorization
header, and the JSON body fields from app.py lines 157-166. -/
structure ApiRequest where
  url : String
  authorization : String
  model : String
  messages : List ChatMessage
  temperature : ℚ
  max_tokens : Nat
  stream : Bool
  timeout : Nat
deriving DecidableEq, Repr

/-- Deployment configuration read in `SolidityCopilot.__init__`. -/
structure Config where
  api_key : String
  base_url : String
  model_name : String
deriving Repr

/-- An HTTP response as seen by `make_api_call`. -/
structure HttpResponse where
  status_code : Nat
  text : String
deriving DecidableEq, Repr

/-- Outcome of one `session.post`: either a raised exception (connection
error, TLS failure, timeout) with its message, or a response. -/
inductive PostOutcome where
  | exn (msg : String)
  | resp (r : HttpResponse)
deriving DecidableEq, Repr

/-- The request built at app.py lines 151-166 and 198. -/
def buildRequest (cfg : Config) (system_prompt user_prompt : String)
    (timeout : Nat) : ApiRequest :=
  ⟨cfg.base_url ++ "/chat/completions",
   "Bearer " ++ cfg.api_key,
   cfg.model_name,
   [⟨"system", system_prompt⟩, ⟨"user", user_prompt⟩],
   7 / 10,
   6000,
   false,
   timeout⟩

/-- `response_data["choices"][0]["message"]["content"]` (app.py:217): `some`
iff the path exists in the decoded body and holds text. -/
def extractContent (j : PyJson) : Option String :=
  match j with
  | .obj fields =>
    match dictGet fields "choices" with
    | some (.arr (c :: _)) =>
      match c with
      | .obj cf =>
        match dictGet cf "message" with
        | some (.obj mf) =>
          match dictGet mf "content" with
          | some (.str s) => some s
          | _ => none
        | _ => none
      | _ => none
    | _ => none
  | _ => none

/-- Response handling of `make_api_call` (app.py lines 210-223). -/
def handleResponse (outcome : PostOutcome) : Except PyExn String :=
  match outcome with
  | .exn msg => .error (.apiCallFailed ("API call failed: " ++ msg))
  | .resp r =>
    if r.status_code == 200 then
      match json_loads r.text with
      | none => .error .jsonDecodeError
      | some j =>
        match extractContent j with
        | some content => .ok content
        | none => .error .malformedResponse
    else .error (.apiStatusError r.status_code r.text)

/-- `make_api_call` with the network as an oracle from the index of the POST
within the current turn to its outcome: returns the request it assembles and
the extracted content or raised exception.  The Python parameter default is
`timeout=30`; callers that rely on it pass 30 explicitly here. -/
def make_api_call (cfg : Config) (transport : Nat → PostOutcome) (idx : Nat)
    (system_prompt user_prompt : String) (timeout : Nat) :
    ApiRequest × Except PyExn String :=
  (buildRequest cfg system_prompt user_prompt timeout,
   handleResponse (transport idx))

/-! ### Response orchestrator (`get_response`, app.py lines 225-372) -/

/-- Step-2 system prompt (app.py:267). -/
def seniorReviewerPrompt : String :=
  "You are a senior Solidity expert specializing in security, gas optimization, and best practices."

/-- Step-3 system prompt (app.py:279). -/
def analystSystemPrompt : String :=
  "You are a Solidity code analyst who identifies assumptions and design decisions in smart contract code."

/-- Step-3 technical fallback (app.py:290). -/
def techFallback : String :=
  "Error extracting technical assumptions from code analysis"

/-- Step-3 security fallback (app.py:291). -/
def secFallback : String :=
  "Error extracting security assumptions from code analysis"

/-- The `all_assumptions` f-string (app.py lines 341-348). -/
def assumptionsBlock (technical security : String) : String :=
  "\n## 📋 **All Assumptions Made in Final Code**\n\n### 🔧 **Technical Assumptions in Code**\n"
    ++ technical
    ++ "\n\n### 🛡️ **Security Assumptions in Code**\n"
    ++ security ++ " "

/-- The trailing completion banner of the step-3 return value (app.py:362). -/
def completionBanner : String :=
  "---\n*Two-Call Architecture Complete* - This response has been improved with comprehensive review covering technical accuracy, security, gas optimization, and best practices. All assumptions made in the final code that weren\x27t explicitly specified by the user are documented above."

/-- The full return value of the three-call branch (app.py:362). -/
def threeCallResult (improved technical security : String) : String :=
  improved ++ "\n\n" ++ assumptionsBlock technical security ++ "\n\n"
    ++ completionBanner

/-- Fixed apology returned by the top-level handler (app.py:372). -/
def apology : String := "Sorry, I encountered an error. Please try again."

/-- The body of the `try` block of `get_response` (app.py lines 230-367):
the result of the branch taken (`.error` = an uncaught exception reaching the
top-level handler) together with the requests assembled, in order.  Step 3
(app.py lines 276-291) catches every exception and falls back to the two
fixed markers. -/
def get_response_body (cfg : Config) (transport : Nat → PostOutcome)
    (user_input : String) (use_two_call use_three_call : Bool) :
    Except PyExn String × List ApiRequest :=
  let system_prompt := get_solidity_expert_prompt
  if !use_two_call && !use_three_call then
    let c := make_api_call cfg transport 0 system_prompt user_input 30
    (c.2, [c.1])
  else if use_three_call then
    let c1 := make_api_call cfg transport 0 system_prompt user_input 30
    match c1.2 with
    | .error e => (.error e, [c1.1])
    | .ok primary_response =>
      let c2 := make_api_call cfg transport 1 seniorReviewerPrompt
        (improvement_prompt user_input primary_response) 45
      match c2.2 with
      | .error e => (.error e, [c1.1, c2.1])
      | .ok improved_response =>
        let c3 := make_api_call cfg transport 2 analystSystemPrompt
          (get_assumptions_prompt user_input improved_response) 30
        let ts : String × String :=
          match c3.2 with
          | .error _ => (techFallback, secFallback)
          | .ok assumptions_response =>
            match parse_assumptions_response assumptions_response with
            | .ok p => p
            | .error _ => (techFallback, secFallback)
        (.ok (threeCallResult improved_response ts.1 ts.2), [c1.1, c2.1, c3.1])
  else
    let c := make_api_call cfg transport 0 system_prompt user_input 30
    (c.2, [c.1])

/-- `get_response` (app.py lines 225-372): the try-block body with the
top-level `except Exception` handler converting any escaped exception into
the fixed apology string.  Also returns the requests assembled. -/
def get_response (cfg : Config) (transport : Nat → PostOutcome)
    (user_input : String) (use_two_call use_three_call : Bool) :
    String × List ApiRequest :=
  let r := get_response_body cfg transport user_input use_two_call
    use_three_call
  (match r.1 with
   | .ok s => s
   | .error _ => apology,
   r.2)

/-- `main` fixes the flags before every call site (app.py lines 477-478). -/
def ui_use_two_call : Bool := false

/-- `main` fixes `use_three_call = True` (app.py:478); every call of
`get_response` from the UI passes these session flags. -/
def ui_use_three_call : Bool := true

/-! ### Substring-chain specification used by the output-shape claims -/

/-- `ContainsInOrder hay needles`: the needles occur in `hay` as disjoint
substrings, in the given order. -/
def ContainsInOrder : String → List String → Prop
  | _, [] => True
  | hay, n :: ns => ∃ pre rest, hay = pre ++ n ++ rest ∧ ContainsInOrder rest ns

/-! ### Concrete fixtures used to instantiate the theorems -/

/-- A concrete deployment configuration. -/
def wCfg : Config := ⟨"key", "https://api.example", "model-x"⟩

/-- A 200 body whose `choices[0].message.content` is `"X"`. -/
def wBodyOk : String :=
  "\x7b\"choices\":[\x7b\"message\":\x7b\"content\":\"X\"\x7d\x7d]\x7d"

/-- A 200 body whose `choices[0].message.content` is `"[]"` (valid JSON that
is not an object, so `parse_assumptions_response` raises on it). -/
def wBodyList : String :=
  "\x7b\"choices\":[\x7b\"message\":\x7b\"content\":\"[]\"\x7d\x7d]\x7d"

/-- A network where every POST succeeds with content `"X"`. -/
def wTrOk : Nat → PostOutcome := fun _ => .resp ⟨200, wBodyOk⟩

/-- A network where every POST raises (e.g. a timeout). -/
def wTrFail : Nat → PostOutcome := fun _ => .exn "timeout"

/-- A network where the first POST succeeds and the second raises. -/
def wTrStep2Fail : Nat → PostOutcome := fun i =>
  if i == 0 then .resp ⟨200, wBodyOk⟩ else .exn "timeout"

/-- A network where steps 1-2 succeed and step 3 returns content whose
assumptions parse raises. -/
def wTrStep3Parse : Nat → PostOutcome := fun i =>
  if i == 2 then .resp ⟨200, wBodyList⟩ else .resp ⟨200, wBodyOk⟩

/-- A network where every POST returns a 404. -/
def wTr404 : Nat → PostOutcome := fun _ => .resp ⟨404, "not found"⟩

/-- Shape shared by every request `make_api_call` builds: endpoint, bearer
authorization, model id, a two-entry system-then-user message list, and the
fixed sampling parameters. -/
def GoodReq (cfg : Config) (req : ApiRequest) : Prop :=
  req.url = cfg.base_url ++ "/chat/completions" ∧
  req.authorization = "Bearer " ++ cfg.api_key ∧
  req.model = cfg.model_name ∧
  (∃ sc uc, req.messages = [⟨"system", sc⟩, ⟨"user", uc⟩]) ∧
  req.temperature = 7 / 10 ∧
  req.max_tokens = 6000 ∧
  req.stream = false

/-! ### Helper lemmas -/


theorem cio_nil (hay : String) : ContainsInOrder hay [] := trivial

theorem cio_cons (pre n rest : String) (ns : List String)
    (h : ContainsInOrder rest ns) :
    ContainsInOrder (pre ++ n ++ rest) (n :: ns) :=
  ⟨pre, rest, rfl, h⟩

theorem cio_mono (p hay : String) (ns : List String)
    (h : ContainsInOrder hay ns) : ContainsInOrder (p ++ hay) ns := by
  match ns with
  | [] => trivial
  | n :: ns =>
    obtain ⟨pre, rest, heq, h'⟩ := h
    exact ⟨p ++ pre, rest, by rw [heq]; simp [String.append_assoc], h'⟩

theorem cio_sublist {ns' ns : List String} (hs : List.Sublist ns' ns) :
    ∀ hay : String, ContainsInOrder hay ns → ContainsInOrder hay ns' := by
  induction hs with
  | slnil => intro hay _; trivial
  | cons a _ ih =>
    intro hay h
    obtain ⟨pre, rest, heq, h'⟩ := h
    rw [heq, String.append_assoc]
    exact cio_mono _ _ _ (cio_mono _ _ _ (ih rest h'))
  | cons₂ a _ ih =>
    intro hay h
    obtain ⟨pre, rest, heq, h'⟩ := h
    exact ⟨pre, rest, heq, ih rest h'⟩

theorem threeCallResult_chain (improved t s : String) :
    ContainsInOrder (threeCallResult improved t s)
      [improved, "### 🔧 **Technical Assumptions in Code**", t,
       "### 🛡️ **Security Assumptions in Code**", s,
       "*Two-Call Architecture Complete*"] := by
  have dA : ("\n## 📋 **All Assumptions Made in Final Code**\n\n### 🔧 **Technical Assumptions in Code**\n" : String).data =
      ("\n## 📋 **All Assumptions Made in Final Code**\n\n" : String).data ++
        (("### 🔧 **Technical Assumptions in Code**" : String).data ++
          ("\n" : String).data) := rfl
  have dB : ("\n\n### 🛡️ **Security Assumptions in Code**\n" : String).data =
      ("\n\n" : String).data ++
        (("### 🛡️ **Security Assumptions in Code**" : String).data ++
          ("\n" : String).data) := rfl
  have dC : completionBanner.data =
      ("---\n" : String).data ++
        (("*Two-Call Architecture Complete*" : String).data ++
          (" - This response has been improved with comprehensive review covering technical accuracy, security, gas optimization, and best practices. All assumptions made in the final code that weren\x27t explicitly specified by the user are documented above." : String).data) := rfl
  have hres : threeCallResult improved t s =
      "" ++ improved ++
        (("\n\n" ++ "\n## 📋 **All Assumptions Made in Final Code**\n\n") ++
          "### 🔧 **Technical Assumptions in Code**" ++
          ("\n" ++ t ++
            ("\n\n" ++ "### 🛡️ **Security Assumptions in Code**" ++
              ("\n" ++ s ++
                ((" " ++ "\n\n" ++ "---\n") ++
                  "*Two-Call Architecture Complete*" ++
                  " - This response has been improved with comprehensive review covering technical accuracy, security, gas optimization, and best practices. All assumptions made in the final code that weren\x27t explicitly specified by the user are documented above."))))) := by
    rw [String.ext_iff]
    simp only [threeCallResult, assumptionsBlock, String.data_append,
      List.append_assoc, dA, dB, dC, List.nil_append, List.cons_append,
      List.singleton_append]
  rw [hres]
  exact cio_cons _ _ _ _ (cio_cons _ _ _ _ (cio_cons _ _ _ _ (cio_cons _ _ _ _
    (cio_cons _ _ _ _ (cio_cons _ _ _ _ (cio_nil _))))))

theorem improvement_prompt_ne_empty (u p : String) :
    improvement_prompt u p ≠ "" := by
  intro hcon
  have hlen := congrArg String.length hcon
  simp only [improvement_prompt, String.length_append, String.length_empty] at hlen
  have hpos : 0 < improvementSeg1.length := by decide
  omega

theorem assumptions_prompt_ne_empty (u p : String) :
    get_assumptions_prompt u p ≠ "" := by
  intro hcon
  have hlen := congrArg String.length hcon
  simp only [get_assumptions_prompt, String.length_append, String.length_empty] at hlen
  have hpos : 0 < assumptionsSeg1.length := by decide
  omega

/-- Case analysis of the request trace of `get_response`: with the three-call
flag off it is the single expert-prompt request; with it on, it is a prefix
of the generate / improve / analyze sequence, cut at the first failing
step. -/
theorem get_response_trace (cfg : Config) (transport : Nat → PostOutcome)
    (user_input : String) (b2 b3 : Bool) :
    (b3 = false → (get_response cfg transport user_input b2 b3).2 =
      [buildRequest cfg get_solidity_expert_prompt user_input 30]) ∧
    (b3 = true →
      (get_response cfg transport user_input b2 b3).2 =
        [buildRequest cfg get_solidity_expert_prompt user_input 30] ∨
      (∃ c0, handleResponse (transport 0) = .ok c0 ∧
        (get_response cfg transport user_input b2 b3).2 =
          [buildRequest cfg get_solidity_expert_prompt user_input 30,
           buildRequest cfg seniorReviewerPrompt
             (improvement_prompt user_input c0) 45]) ∨
      (∃ c0 c1, handleResponse (transport 0) = .ok c0 ∧
        handleResponse (transport 1) = .ok c1 ∧
        (get_response cfg transport user_input b2 b3).2 =
          [buildRequest cfg get_solidity_expert_prompt user_input 30,
           buildRequest cfg seniorReviewerPrompt
             (improvement_prompt user_input c0) 45,
           buildRequest cfg analystSystemPrompt
             (get_assumptions_prompt user_input c1) 30])) := by
  constructor
  · rintro rfl
    cases b2 <;> simp [get_response, get_response_body, make_api_call]
  · rintro rfl
    cases h0 : handleResponse (transport 0) with
    | error e =>
      exact Or.inl (by cases b2 <;>
        simp [get_response, get_response_body, make_api_call, h0])
    | ok c0 =>
      cases h1 : handleResponse (transport 1) with
      | error e =>
        exact Or.inr (Or.inl ⟨c0, rfl, by cases b2 <;>
          simp [get_response, get_response_body, make_api_call, h0, h1]⟩)
      | ok c1 =>
        exact Or.inr (Or.inr ⟨c0, c1, rfl, rfl, by cases b2 <;>
          simp [get_response, get_response_body, make_api_call, h0, h1]⟩)

/-! ### Claims -/

/-- C2: for every user_input, if the step-1 or step-2 transport call raises
any failure, `get_response` returns exactly the fixed apology string
"Sorry, I encountered an error. Please try again." and no other content. -/
theorem C2_step12_failure_apology (cfg : Config)
    (transport : Nat → PostOutcome) (user_input : String) (b2 : Bool)
    (h : (∃ e, handleResponse (transport 0) = .error e) ∨
      ∃ c0 e, handleResponse (transport 0) = .ok c0 ∧
        handleResponse (transport 1) = .error e) :
    (get_response cfg transport user_input b2 true).1 = apology := by
  rcases h with ⟨e, he⟩ | ⟨c0, e, hc0, he⟩
  · cases b2 <;>
      simp [get_response, get_response_body, make_api_call, he]
  · cases b2 <;>
      simp [get_response, get_response_body, make_api_call, hc0, he]

theorem C2_step12_failure_apology_witness :
    (∃ e, handleResponse (wTrFail 0) = .error e) ∧
    (get_response wCfg wTrFail "hi" false true).1 = apology :=
  ⟨⟨.apiCallFailed ("API call failed: " ++ "timeout"), rfl⟩,
   C2_step12_failure_apology wCfg wTrFail "hi" false
     (Or.inl ⟨.apiCallFailed ("API call failed: " ++ "timeout"), rfl⟩)⟩

/-- C10: `get_response` is total: for every input and every outcome of the
transport calls it returns a string — any exception escaping the try-block
body is converted to the fixed apology string, and a successful body result
is returned as-is. -/
theorem C10_get_response_total (cfg : Config)
    (transport : Nat → PostOutcome) (user_input : String) (b2 b3 : Bool) :
    (∃ e, (get_response_body cfg transport user_input b2 b3).1 = .error e ∧
      (get_response cfg transport user_input b2 b3).1 = apology) ∨
    ∃ s, (get_response_body cfg transport user_input b2 b3).1 = .ok s ∧
      (get_response cfg transport user_input b2 b3).1 = s := by
  cases hr : (get_response_body cfg transport user_input b2 b3).1 with
  | error e => exact Or.inl ⟨e, rfl, by simp [get_response, hr]⟩
  | ok s => exact Or.inr ⟨s, rfl, by simp [get_response, hr]⟩

/-- C4 counterexample: the claim "parse_assumptions_response returns without
raising for every input string" is false: `"[]"` is valid JSON, so the
`except json.JSONDecodeError` clause does not fire, and `data.get` on the
resulting list raises AttributeError. -/
theorem C4_counterexample_nonobject :
    parse_assumptions_response "[]" = .error .attributeError := by rfl

/-- C4 (amended): for every input whose JSON decoding fails,
`parse_assumptions_response` returns without raising, with both fields equal
to the fixed failure marker. -/
theorem C4_decode_failure_marker (s : String) (h : json_loads s = none) :
    parse_assumptions_response s = .ok (jsonFailMarker, jsonFailMarker) := by
  simp [parse_assumptions_response, h]

theorem C4_decode_failure_marker_witness :
    json_loads "not json" = none ∧
    parse_assumptions_response "not json" =
      .ok (jsonFailMarker, jsonFailMarker) :=
  ⟨rfl, C4_decode_failure_marker "not json" rfl⟩

/-- C5: on a decoded JSON object the three arrays are read with missing keys
defaulting to empty, each joined with newlines, and a non-empty
implementation list is folded into the technical field as a labeled trailing
block; on the concrete three-array input this yields
("a\n\nImplementation Assumptions:\nc", "b"), and when
implementation_assumptions is missing or empty the technical field is the
joined technical list alone. -/
theorem C5_parse_assumptions_success :
    parse_assumptions_response
        "\x7b\"technical_assumptions\":[\"a\"],\"security_assumptions\":[\"b\"],\"implementation_assumptions\":[\"c\"]\x7d" =
      .ok ("a\n\nImplementation Assumptions:\nc", "b") ∧
    ∀ (s : String) (fields : List (String × PyJson)) (t sec : String),
      json_loads s = some (.obj fields) →
      (dictGet fields "implementation_assumptions" = none ∨
        dictGet fields "implementation_assumptions" = some (.arr [])) →
      getJoin fields "technical_assumptions" = .ok t →
      getJoin fields "security_assumptions" = .ok sec →
      parse_assumptions_response s = .ok (t, sec) := by
  constructor
  · rfl
  · intro s fields t sec hj himp ht hs
    have himpj : getJoin fields "implementation_assumptions" = .ok "" := by
      rcases himp with himp | himp <;>
        simp [getJoin, himp, pyJoinNl, allStrs, String.intercalate]
    have hemp : ("" : String).isEmpty = true := rfl
    simp [parse_assumptions_response, hj, ht, hs, himpj, hemp]

theorem C5_parse_assumptions_success_witness :
    json_loads "\x7b\"security_assumptions\":[\"b\"]\x7d" =
      some (.obj [("security_assumptions", .arr [.str "b"])]) ∧
    dictGet [("security_assumptions", PyJson.arr [PyJson.str "b"])]
      "implementation_assumptions" = none ∧
    getJoin [("security_assumptions", PyJson.arr [PyJson.str "b"])]
      "technical_assumptions" = .ok "" ∧
    getJoin [("security_assumptions", PyJson.arr [PyJson.str "b"])]
      "security_assumptions" = .ok "b" ∧
    parse_assumptions_response "\x7b\"security_assumptions\":[\"b\"]\x7d" =
      .ok ("", "b") :=
  ⟨rfl, rfl, rfl, rfl,
   C5_parse_assumptions_success.2 "\x7b\"security_assumptions\":[\"b\"]\x7d"
     [("security_assumptions", .arr [.str "b"])] "" "b" rfl (Or.inl rfl) rfl
     rfl⟩

/-- C1: for every non-empty user_input, when all three transport calls
succeed, `get_response` returns a single string containing the improved
step-2 output as a literal substring, followed by the formatted assumptions
block with its technical and security subsections, followed by the
completion-banner substring, which trails the returned text. -/
theorem C1_success_output_shape (cfg : Config)
    (transport : Nat → PostOutcome) (user_input : String) (b2 : Bool)
    (c0 c1 c2 : String) (_hne : user_input ≠ "")
    (h0 : handleResponse (transport 0) = .ok c0)
    (h1 : handleResponse (transport 1) = .ok c1)
    (h2 : handleResponse (transport 2) = .ok c2) :
    ContainsInOrder (get_response cfg transport user_input b2 true).1
      [c1, "### 🔧 **Technical Assumptions in Code**",
       "### 🛡️ **Security Assumptions in Code**",
       "*Two-Call Architecture Complete*"] ∧
    ∃ pre, (get_response cfg transport user_input b2 true).1 =
      pre ++ completionBanner := by
  have hbody : ∃ X Y, (get_response cfg transport user_input b2 true).1 =
      threeCallResult c1 X Y := by
    cases b2 <;>
      simp [get_response, get_response_body, make_api_call, h0, h1, h2]
  obtain ⟨X, Y, hres⟩ := hbody
  constructor
  · rw [hres]
    exact cio_sublist
      (List.Sublist.cons₂ _ (List.Sublist.cons₂ _ (List.Sublist.cons _
        (List.Sublist.cons₂ _ (List.Sublist.cons _
          (List.Sublist.cons₂ _ List.Sublist.slnil)))))) _
      (threeCallResult_chain c1 X Y)
  · exact ⟨c1 ++ "\n\n" ++ assumptionsBlock X Y ++ "\n\n",
      by rw [hres, threeCallResult]⟩

theorem C1_success_output_shape_witness :
    ("hello" : String) ≠ "" ∧
    handleResponse (wTrOk 0) = .ok "X" ∧
    handleResponse (wTrOk 1) = .ok "X" ∧
    handleResponse (wTrOk 2) = .ok "X" ∧
    (ContainsInOrder (get_response wCfg wTrOk "hello" false true).1
      ["X", "### 🔧 **Technical Assumptions in Code**",
       "### 🛡️ **Security Assumptions in Code**",
       "*Two-Call Architecture Complete*"] ∧
     ∃ pre, (get_response wCfg wTrOk "hello" false true).1 =
       pre ++ completionBanner) :=
  ⟨by decide, rfl, rfl, rfl,
   C1_success_output_shape wCfg wTrOk "hello" false "X" "X" "X" (by decide)
     rfl rfl rfl⟩

/-- C3: when steps 1 and 2 succeed, any step-3 failure (transport failure or
parse failure of the assumptions reply) does not abort the sequence:
`get_response` still returns the improved output, and the technical and
security subsections of the returned text hold the fixed "Error extracting
... assumptions from code analysis" fallback markers. -/
theorem C3_step3_failure_degraded (cfg : Config)
    (transport : Nat → PostOutcome) (user_input : String) (b2 : Bool)
    (c0 c1 : String)
    (h0 : handleResponse (transport 0) = .ok c0)
    (h1 : handleResponse (transport 1) = .ok c1)
    (h2 : (∃ e, handleResponse (transport 2) = .error e) ∨
      ∃ a e, handleResponse (transport 2) = .ok a ∧
        parse_assumptions_response a = .error e) :
    (get_response cfg transport user_input b2 true).1 =
      threeCallResult c1 techFallback secFallback ∧
    ContainsInOrder (get_response cfg transport user_input b2 true).1
      [c1, "### 🔧 **Technical Assumptions in Code**", techFallback,
       "### 🛡️ **Security Assumptions in Code**", secFallback] := by
  have hres : (get_response cfg transport user_input b2 true).1 =
      threeCallResult c1 techFallback secFallback := by
    rcases h2 with ⟨e, he⟩ | ⟨a, e, ha, hp⟩
    · cases b2 <;>
        simp [get_response, get_response_body, make_api_call, h0, h1, he]
    · cases b2 <;>
        simp [get_response, get_response_body, make_api_call, h0, h1, ha, hp]
  refine ⟨hres, ?_⟩
  rw [hres]
  exact cio_sublist
    (List.Sublist.cons₂ _ (List.Sublist.cons₂ _ (List.Sublist.cons₂ _
      (List.Sublist.cons₂ _ (List.Sublist.cons₂ _
        (List.Sublist.cons _ List.Sublist.slnil)))))) _
    (threeCallResult_chain c1 techFallback secFallback)

theorem C3_step3_failure_degraded_witness :
    handleResponse (wTrStep3Parse 0) = .ok "X" ∧
    handleResponse (wTrStep3Parse 1) = .ok "X" ∧
    handleResponse (wTrStep3Parse 2) = .ok "[]" ∧
    parse_assumptions_response "[]" = .error .attributeError ∧
    (get_response wCfg wTrStep3Parse "q" false true).1 =
      threeCallResult "X" techFallback secFallback :=
  ⟨rfl, rfl, rfl, rfl,
   (C3_step3_failure_degraded wCfg wTrStep3Parse "q" false "X" "X" rfl rfl
     (Or.inr ⟨"[]", .attributeError, rfl, rfl⟩)).1⟩

/-- C6: `make_api_call` fails with the transport exception when the POST
raises, fails with an error carrying the status code and response body when
the status is not 200, fails with the distinct malformed-response error when
a 200 body decodes to JSON lacking `choices[0].message.content`, and on
success returns exactly the text at that path. -/
theorem C6_make_api_call_contract (cfg : Config)
    (transport : Nat → PostOutcome) (idx : Nat) (sp up : String)
    (tmo : Nat) :
    (∀ msg, transport idx = .exn msg →
      (make_api_call cfg transport idx sp up tmo).2 =
        .error (.apiCallFailed ("API call failed: " ++ msg))) ∧
    (∀ r, transport idx = .resp r → r.status_code ≠ 200 →
      (make_api_call cfg transport idx sp up tmo).2 =
        .error (.apiStatusError r.status_code r.text)) ∧
    (∀ r j, transport idx = .resp r → r.status_code = 200 →
      json_loads r.text = some j → extractContent j = none →
      (make_api_call cfg transport idx sp up tmo).2 =
        .error .malformedResponse) ∧
    (∀ r j s, transport idx = .resp r → r.status_code = 200 →
      json_loads r.text = some j → extractContent j = some s →
      (make_api_call cfg transport idx sp up tmo).2 = .ok s) ∧
    (∀ status body msg, PyExn.malformedResponse ≠ .apiStatusError status body ∧
      PyExn.malformedResponse ≠ .apiCallFailed msg) := by
  refine ⟨?_, ?_, ?_, ?_, ?_⟩
  · intro msg h
    simp [make_api_call, handleResponse, h]
  · intro r h hs
    have hb : (r.status_code == 200) = false := by simpa using hs
    simp [make_api_call, handleResponse, h, hb]
  · intro r j h hs hj he
    simp [make_api_call, handleResponse, h, hs, hj, he]
  · intro r j s h hs hj he
    simp [make_api_call, handleResponse, h, hs, hj, he]
  · intro status body msg
    exact ⟨by simp, by simp⟩

theorem C6_make_api_call_contract_witness :
    wTr404 0 = .resp ⟨404, "not found"⟩ ∧
    (404 : Nat) ≠ 200 ∧
    (make_api_call wCfg wTr404 0 "s" "u" 30).2 =
      .error (.apiStatusError 404 "not found") :=
  ⟨rfl, by decide,
   (C6_make_api_call_contract wCfg wTr404 0 "s" "u" 30).2.1
     ⟨404, "not found"⟩ rfl (by decide)⟩

/-- C7: every request assembled by the transport client posts to
`base_url ++ "/chat/completions"` a body with exactly two messages in order
system then user, temperature 0.7, max_tokens 6000, stream false, and a
Bearer authorization header; in three-call mode the i-th request of the turn
uses the per-call timeout 30, 45, 30 respectively, and otherwise 30. -/
theorem C7_request_shape (cfg : Config) (transport : Nat → PostOutcome)
    (user_input : String) (b2 b3 : Bool) :
    ∀ i : Nat, i < ((get_response cfg transport user_input b2 b3).2).length →
      GoodReq cfg (((get_response cfg transport user_input b2 b3).2).getD i
        (buildRequest cfg "" "" 30)) ∧
      (b3 = true →
        ((((get_response cfg transport user_input b2 b3).2).getD i
          (buildRequest cfg "" "" 30))).timeout = [30, 45, 30].getD i 0) ∧
      (b3 = false →
        ((((get_response cfg transport user_input b2 b3).2).getD i
          (buildRequest cfg "" "" 30))).timeout = 30) := by
  have good : ∀ sp up t, GoodReq cfg (buildRequest cfg sp up t) :=
    fun sp up t => ⟨rfl, rfl, rfl, ⟨sp, up, rfl⟩, rfl, rfl, rfl⟩
  intro i hi
  cases b3 with
  | false =>
    have ht := (get_response_trace cfg transport user_input b2 false).1 rfl
    rw [ht] at hi ⊢
    simp only [List.length_cons, List.length_nil] at hi
    interval_cases i
    · exact ⟨good _ _ _, by simp, fun _ => rfl⟩
  | true =>
    rcases (get_response_trace cfg transport user_input b2 true).2 rfl with
      ht | ⟨c0, _, ht⟩ | ⟨c0, c1, _, _, ht⟩ <;>
      rw [ht] at hi ⊢ <;>
      simp only [List.length_cons, List.length_nil] at hi <;>
      interval_cases i <;>
      exact ⟨good _ _ _, fun _ => rfl, by simp⟩

theorem C7_request_shape_witness :
    0 < ((get_response wCfg wTrOk "q" false true).2).length ∧
    GoodReq wCfg (((get_response wCfg wTrOk "q" false true).2).getD 0
      (buildRequest wCfg "" "" 30)) ∧
    (((get_response wCfg wTrOk "q" false true).2).getD 0
      (buildRequest wCfg "" "" 30)).timeout = [30, 45, 30].getD 0 0 :=
  ⟨by decide,
   (C7_request_shape wCfg wTrOk "q" false true 0 (by decide)).1,
   (C7_request_shape wCfg wTrOk "q" false true 0 (by decide)).2.1 rfl⟩

/-- C8: the UI always fixes use_two_call = false and use_three_call = true,
so the three-call sequence runs (three requests on success); for every flag
combination with use_three_call = false — including use_two_call = true —
`get_response` assembles exactly one request, with the expert system prompt,
and returns its content unchanged, so the one-call mode is unreachable from
the UI. -/
theorem C8_mode_selection (cfg : Config) (transport : Nat → PostOutcome)
    (user_input : String) :
    ui_use_two_call = false ∧ ui_use_three_call = true ∧
    (∀ b2, (get_response cfg transport user_input b2 false).2 =
      [buildRequest cfg get_solidity_expert_prompt user_input 30]) ∧
    (∀ b2 c, handleResponse (transport 0) = .ok c →
      (get_response cfg transport user_input b2 false).1 = c) ∧
    (∀ b2 c0 c1 c2, handleResponse (transport 0) = .ok c0 →
      handleResponse (transport 1) = .ok c1 →
      handleResponse (transport 2) = .ok c2 →
      ((get_response cfg transport user_input b2 true).2).length = 3) := by
  refine ⟨rfl, rfl, ?_, ?_, ?_⟩
  · intro b2
    exact (get_response_trace cfg transport user_input b2 false).1 rfl
  · intro b2 c hc
    cases b2 <;> simp [get_response, get_response_body, make_api_call, hc]
  · intro b2 c0 c1 c2 h0 h1 h2
    cases b2 <;>
      simp [get_response, get_response_body, make_api_call, h0, h1, h2]

theorem C8_mode_selection_witness :
    handleResponse (wTrOk 0) = .ok "X" ∧
    (get_response wCfg wTrOk "q" true false).1 = "X" :=
  ⟨rfl, (C8_mode_selection wCfg wTrOk "q").2.2.2.1 true "X" rfl⟩

/-- C9: for every non-empty user_input, every request assembled during the
turn carries a non-empty user prompt in its user-role message, in every mode
and whatever the transport outcomes. -/
theorem C9_requests_nonempty_user_prompt (cfg : Config)
    (transport : Nat → PostOutcome) (user_input : String) (b2 b3 : Bool)
    (h : user_input ≠ "") :
    ∀ i : Nat, i < ((get_response cfg transport user_input b2 b3).2).length →
      ∃ sc uc, (((get_response cfg transport user_input b2 b3).2).getD i
          (buildRequest cfg "" "" 30)).messages =
        [⟨"system", sc⟩, ⟨"user", uc⟩] ∧ uc ≠ "" := by
  intro i hi
  cases b3 with
  | false =>
    have ht := (get_response_trace cfg transport user_input b2 false).1 rfl
    rw [ht] at hi ⊢
    simp only [List.length_cons, List.length_nil] at hi
    interval_cases i
    · exact ⟨get_solidity_expert_prompt, user_input, rfl, h⟩
  | true =>
    rcases (get_response_trace cfg transport user_input b2 true).2 rfl with
      ht | ⟨c0, _, ht⟩ | ⟨c0, c1, _, _, ht⟩ <;>
      rw [ht] at hi ⊢ <;>
      simp only [List.length_cons, List.length_nil] at hi
    · interval_cases i
      · exact ⟨get_solidity_expert_prompt, user_input, rfl, h⟩
    · interval_cases i
      · exact ⟨get_solidity_expert_prompt, user_input, rfl, h⟩
      · exact ⟨seniorReviewerPrompt, improvement_prompt user_input c0, rfl,
          improvement_prompt_ne_empty user_input c0⟩
    · interval_cases i
      · exact ⟨get_solidity_expert_prompt, user_input, rfl, h⟩
      · exact ⟨seniorReviewerPrompt, improvement_prompt user_input c0, rfl,
          improvement_prompt_ne_empty user_input c0⟩
      · exact ⟨analystSystemPrompt, get_assumptions_prompt user_input c1, rfl,
          assumptions_prompt_ne_empty user_input c1⟩

theorem C9_requests_nonempty_user_prompt_witness :
    ("q" : String) ≠ "" ∧
    0 < ((get_response wCfg wTrOk "q" false true).2).length ∧
    ∃ sc uc, (((get_response wCfg wTrOk "q" false true).2).getD 0
        (buildRequest wCfg "" "" 30)).messages =
      [⟨"system", sc⟩, ⟨"user", uc⟩] ∧ uc ≠ "" :=
  ⟨by decide, by decide,
   C9_requests_nonempty_user_prompt wCfg wTrOk "q" false true (by decide) 0
     (by decide)⟩
